/-
Verification of the palantir/rust-zipkin tracing library against its
natural-language specification.

This file shallowly embeds the parts of the repository that the checked
claims are about:
  * the hex codec used by `TraceId`/`SpanId` `Display`/`FromStr`
    (zipkin-types/src/trace_id.rs, zipkin-types/src/span_id.rs),
  * sampling flags and trace contexts with their builders
    (zipkin-types/src/sampling_flags.rs, zipkin/src/trace_context.rs),
  * the span record and its builder (zipkin-types/src/span.rs),
  * the wire serialization of durations and timestamps
    (zipkin-types/src/lib.rs, modules duration_micros / time_micros),
  * the samplers (zipkin/src/sample.rs),
  * the thread-local current-context cell (zipkin/src/current.rs),
  * the tracer and open-span guard (zipkin/src/tracer.rs),
  * the B3 HTTP header codec (http-zipkin/src/lib.rs),
  * the HTTP reporter's response handling
    (zipkin-reporter-http/src/lib.rs, zipkin-reporter-http/src/error.rs).

Rust strings are modelled as `List Char` where their character structure
matters (hex rendering, header values) and as `String` where they are
opaque payloads.  Machine integers are modelled as `Nat` with explicit
`% 2 ^ 64` where u64 wrap-around is possible.  Functions that can panic
are modelled as `Option`-returning functions (`none` = panic).
-/
import Mathlib

namespace Zipkin

/-! ### Hex codec

`Display` for the id types prints each byte as two lowercase hex digits
(`write!(fmt, "{:02x}", b)`); `FromStr` decodes with
`HEXLOWER_PERMISSIVE` which accepts both lowercase and uppercase digits
and fails on other characters or odd lengths. -/

/-- Lowercase hex digit of a value below 16, as printed by `{:02x}`. -/
def hexDigit (n : Nat) : Char :=
  if n < 10 then Char.ofNat (48 + n) else Char.ofNat (97 + (n - 10))

/-- Value of one hex digit under `HEXLOWER_PERMISSIVE`: accepts `0`-`9`,
`a`-`f` and `A`-`F`, rejects everything else. -/
def hexVal (c : Char) : Option Nat :=
  if 48 ≤ c.toNat ∧ c.toNat ≤ 57 then some (c.toNat - 48)
  else if 97 ≤ c.toNat ∧ c.toNat ≤ 102 then some (c.toNat - 97 + 10)
  else if 65 ≤ c.toNat ∧ c.toNat ≤ 70 then some (c.toNat - 65 + 10)
  else none

/-- Rendering of a byte sequence as lowercase hex, two digits per byte. -/
def renderBytes (bs : List Nat) : List Char :=
  bs.flatMap fun b => [hexDigit (b / 16), hexDigit (b % 16)]

/-- Decoding of a hex string into bytes, two digits per byte; fails on an
odd length or a non-hex character, like `HEXLOWER_PERMISSIVE.decode_mut`. -/
def decodeHexPairs : List Char → Option (List Nat)
  | [] => some []
  | [_] => none
  | c1 :: c2 :: rest =>
    match hexVal c1, hexVal c2, decodeHexPairs rest with
    | some h, some l, some bs => some ((16 * h + l) :: bs)
    | _, _, _ => none

/-- Model of Rust `str::split('-')`: splits into the (possibly empty)
chunks between dashes; the empty string yields one empty chunk. -/
def splitDash : List Char → List (List Char)
  | [] => [[]]
  | c :: rest =>
    if c = '-' then [] :: splitDash rest
    else
      match splitDash rest with
      | [] => [[c]]
      | p :: ps => (c :: p) :: ps

theorem hexVal_hexDigit : ∀ n < 16, hexVal (hexDigit n) = some n := by decide

theorem hexDigit_ne_dash : ∀ n < 16, hexDigit n ≠ '-' := by decide

theorem renderBytes_nil : renderBytes [] = [] := rfl

theorem renderBytes_cons (b : Nat) (bs : List Nat) :
    renderBytes (b :: bs) = hexDigit (b / 16) :: hexDigit (b % 16) :: renderBytes bs := rfl

theorem length_renderBytes (bs : List Nat) : (renderBytes bs).length = 2 * bs.length := by
  induction bs with
  | nil => rfl
  | cons b bs ih => rw [renderBytes_cons]; simp only [List.length_cons, ih]; omega

theorem decodeHexPairs_renderBytes (bs : List Nat) (h : ∀ b ∈ bs, b < 256) :
    decodeHexPairs (renderBytes bs) = some bs := by
  induction bs with
  | nil => rfl
  | cons b bs ih =>
    have hb : b < 256 := h b (by simp)
    have h1 : b / 16 < 16 := by omega
    have h2 : b % 16 < 16 := Nat.mod_lt _ (by norm_num)
    have ih' := ih fun x hx => h x (by simp [hx])
    rw [renderBytes_cons]
    show (match hexVal (hexDigit (b / 16)), hexVal (hexDigit (b % 16)),
        decodeHexPairs (renderBytes bs) with
      | some h, some l, some bs => some ((16 * h + l) :: bs)
      | _, _, _ => none) = some (b :: bs)
    rw [hexVal_hexDigit _ h1, hexVal_hexDigit _ h2, ih']
    have : 16 * (b / 16) + b % 16 = b := by omega
    simp [this]

theorem renderBytes_ne_dash (bs : List Nat) (h : ∀ b ∈ bs, b < 256) :
    ∀ c ∈ renderBytes bs, c ≠ '-' := by
  induction bs with
  | nil => simp [renderBytes_nil]
  | cons b bs ih =>
    have hb : b < 256 := h b (by simp)
    rw [renderBytes_cons]
    intro c hc
    rcases hc with _ | ⟨_, hc⟩
    · exact hexDigit_ne_dash _ (by omega)
    · rcases hc with _ | ⟨_, hc⟩
      · exact hexDigit_ne_dash _ (Nat.mod_lt _ (by norm_num))
      · exact ih (fun x hx => h x (by simp [hx])) c hc

theorem splitDash_no_dash (xs : List Char) (h : ∀ c ∈ xs, c ≠ '-') :
    splitDash xs = [xs] := by
  induction xs with
  | nil => rfl
  | cons c rest ih =>
    have hc : c ≠ '-' := h c (by simp)
    have ih' := ih fun x hx => h x (by simp [hx])
    simp only [splitDash, if_neg hc, ih']

theorem splitDash_append (xs ys : List Char) (h : ∀ c ∈ xs, c ≠ '-') :
    splitDash (xs ++ '-' :: ys) = xs :: splitDash ys := by
  induction xs with
  | nil => simp [splitDash]
  | cons c rest ih =>
    have hc : c ≠ '-' := h c (by simp)
    have ih' := ih fun x hx => h x (by simp [hx])
    simp only [List.cons_append, splitDash, if_neg hc, List.append_eq, ih']

/-! ### Identifier types

`SpanId` is exactly 8 bytes (zipkin-types/src/span_id.rs); `TraceId` is
8 or 16 bytes and remembers which (zipkin-types/src/trace_id.rs, `Inner`).
Byte arrays are modelled as `List Nat`; well-formedness (`wf`) records
the length and the byte range that the Rust array types guarantee. -/

structure SpanId where
  buf : List Nat
deriving DecidableEq, Repr

def SpanId.wf (s : SpanId) : Prop := s.buf.length = 8 ∧ ∀ b ∈ s.buf, b < 256

instance (s : SpanId) : Decidable s.wf := by unfold SpanId.wf; infer_instance

/-- `Display for SpanId`: each byte as two lowercase hex digits. -/
def SpanId.display (s : SpanId) : List Char := renderBytes s.buf

/-- `FromStr for SpanId`: requires exactly 16 hex chars (decode_len = 8). -/
def SpanId.from_str (s : List Char) : Option SpanId :=
  if s.length = 16 then (decodeHexPairs s).map SpanId.mk else none

theorem SpanId.from_str_display_span (s : SpanId) (h : s.wf) :
    SpanId.from_str s.display = some s := by
  have hl : s.display.length = 16 := by
    rw [SpanId.display, length_renderBytes, h.1]
  rw [SpanId.from_str, if_pos hl, SpanId.display, decodeHexPairs_renderBytes _ h.2,
    Option.map_some']

inductive TraceId where
  | short (b : List Nat)
  | long (b : List Nat)
deriving DecidableEq, Repr

def TraceId.bytes : TraceId → List Nat
  | .short b => b
  | .long b => b

def TraceId.wf : TraceId → Prop
  | .short b => b.length = 8 ∧ ∀ x ∈ b, x < 256
  | .long b => b.length = 16 ∧ ∀ x ∈ b, x < 256

instance (t : TraceId) : Decidable t.wf := by cases t <;> {unfold TraceId.wf; infer_instance}

/-- `Display for TraceId`: the meaningful bytes as lowercase hex. -/
def TraceId.display (t : TraceId) : List Char := renderBytes t.bytes

/-- `FromStr for TraceId`: 16 hex chars parse to the short form, 32 to the
long form, anything else is an error. -/
def TraceId.from_str (s : List Char) : Option TraceId :=
  if s.length = 16 then (decodeHexPairs s).map TraceId.short
  else if s.length = 32 then (decodeHexPairs s).map TraceId.long
  else none

theorem TraceId.from_str_display_trace (t : TraceId) (h : t.wf) :
    TraceId.from_str t.display = some t := by
  cases t with
  | short b =>
    have hl : (renderBytes b).length = 16 := by rw [length_renderBytes, h.1]
    rw [TraceId.display, TraceId.bytes, TraceId.from_str, if_pos hl,
      decodeHexPairs_renderBytes _ h.2, Option.map_some']
  | long b =>
    have hl : (renderBytes b).length = 32 := by rw [length_renderBytes, h.1]
    rw [TraceId.display, TraceId.bytes, TraceId.from_str, if_neg (by omega), if_pos hl,
      decodeHexPairs_renderBytes _ h.2, Option.map_some']

/-! ### Sampling flags (zipkin-types/src/sampling_flags.rs)

The same source file also existed, line for line, as the `sampling_flags`
module of the `zipkin` crate that zipkin/src/trace_context.rs uses. -/

structure SamplingFlags where
  sampled : Option Bool
  debug : Bool
deriving DecidableEq, Repr

namespace sampling_flags

structure Builder where
  sampled : Option Bool
  debug : Bool
deriving DecidableEq, Repr

/-- `impl From<SamplingFlags> for Builder`. -/
def Builder.ofFlags (f : SamplingFlags) : Builder :=
  { sampled := f.sampled, debug := f.debug }

/-- `Builder::sampled`. -/
def Builder.setSampled (b : Builder) (sampled : Bool) : Builder :=
  { b with sampled := some sampled }

/-- `Builder::debug`. -/
def Builder.setDebug (b : Builder) (debug : Bool) : Builder :=
  { b with debug := debug }

/-- `Builder::build`: a debug builder forces `sampled = Some(true)`. -/
def Builder.build (b : Builder) : SamplingFlags :=
  { sampled := if b.debug then some true else b.sampled, debug := b.debug }

end sampling_flags

/-- `SamplingFlags::builder()`. -/
def SamplingFlags.builder : sampling_flags.Builder := { sampled := none, debug := false }

/-! ### Trace contexts

The `TraceContext` struct has the same fields in the `zipkin` crate
(zipkin/src/trace_context.rs) and in zipkin-types/src/trace_context.rs.
The builder embedded here is the one of zipkin/src/trace_context.rs,
whose `build` takes the trace and span ids as arguments. -/

structure TraceContext where
  trace_id : TraceId
  parent_id : Option SpanId
  span_id : SpanId
  flags : SamplingFlags
deriving DecidableEq, Repr

/-- `TraceContext::sampled`. -/
def TraceContext.sampled (c : TraceContext) : Option Bool := c.flags.sampled

/-- `TraceContext::debug`. -/
def TraceContext.debug (c : TraceContext) : Bool := c.flags.debug

namespace trace_context

structure Builder where
  parent_id : Option SpanId
  flags : sampling_flags.Builder
deriving DecidableEq, Repr

/-- `Builder::parent_id`. -/
def Builder.setParentId (b : Builder) (parent_id : SpanId) : Builder :=
  { b with parent_id := some parent_id }

/-- `Builder::sampled`. -/
def Builder.setSampled (b : Builder) (sampled : Bool) : Builder :=
  { b with flags := b.flags.setSampled sampled }

/-- `Builder::debug`. -/
def Builder.setDebug (b : Builder) (debug : Bool) : Builder :=
  { b with flags := b.flags.setDebug debug }

/-- `Builder::build` of zipkin/src/trace_context.rs: the flags builder is
finalized by `SamplingFlags`' `build`. -/
def Builder.build (b : Builder) (trace_id : TraceId) (span_id : SpanId) : TraceContext :=
  { trace_id := trace_id
    parent_id := b.parent_id
    span_id := span_id
    flags := b.flags.build }

end trace_context

/-- `TraceContext::builder()` of zipkin/src/trace_context.rs. -/
def TraceContext.builder : trace_context.Builder :=
  { parent_id := none, flags := SamplingFlags.builder }

/-! ### Span records of zipkin-types/src/span.rs

`SystemTime` values are modelled as `Int` nanoseconds relative to the Unix
epoch, `Duration` values as `(secs, subsec_nanos)` pairs of `Nat`s, and
`HashMap<String, String>` as an association list. -/

namespace types

/-- `Endpoint` of zipkin-types/src/endpoint.rs; addresses are kept as the
numeric value of the ip. -/
structure Endpoint where
  service_name : Option String
  ipv4 : Option Nat
  ipv6 : Option Nat
  port : Option Nat
deriving DecidableEq, Repr

/-- Model of `std::time::Duration`: whole seconds and subsecond nanos. -/
structure Duration where
  secs : Nat
  subsec_nanos : Nat
deriving DecidableEq, Repr

/-- The `Annotation` struct of zipkin-types/src/annotation.rs
(a timestamp plus a value string). -/
structure Annot where
  timestamp : Int
  value : String
deriving DecidableEq, Repr

/-- `Kind` of zipkin-types/src/span.rs. -/
inductive Kind where
  | client
  | server
  | producer
  | consumer
deriving DecidableEq, Repr

structure Span where
  trace_id : TraceId
  name : Option String
  parent_id : Option SpanId
  id : SpanId
  kind : Option Kind
  timestamp : Option Int
  duration : Option Duration
  debug : Bool
  shared : Bool
  local_endpoint : Option Endpoint
  remote_endpoint : Option Endpoint
  annots : List Annot
  tags : List (String × String)
deriving DecidableEq, Repr

namespace span

structure Builder where
  trace_id : Option TraceId
  name : Option String
  parent_id : Option SpanId
  id : Option SpanId
  kind : Option Kind
  timestamp : Option Int
  duration : Option Duration
  debug : Bool
  shared : Bool
  local_endpoint : Option Endpoint
  remote_endpoint : Option Endpoint
  annots : List Annot
  tags : List (String × String)
deriving DecidableEq, Repr

/-- `Builder::build` of zipkin-types/src/span.rs: `expect`s that both
`trace_id` and `id` were set (modelled as `none` = panic) and otherwise
copies every accumulated field into the span. -/
def Builder.build (b : Builder) : Option Span :=
  match b.trace_id, b.id with
  | some trace_id, some id =>
    some { trace_id := trace_id
           name := b.name
           id := id
           kind := b.kind
           parent_id := b.parent_id
           timestamp := b.timestamp
           duration := b.duration
           debug := b.debug
           shared := b.shared
           local_endpoint := b.local_endpoint
           remote_endpoint := b.remote_endpoint
           annots := b.annots
           tags := b.tags }
  | _, _ => none

end span

/-- `Span::builder()`: every optional field starts unset, `debug` and
`shared` start false, collections start empty. -/
def Span.builder : span.Builder :=
  { trace_id := none
    name := none
    parent_id := none
    id := none
    kind := none
    timestamp := none
    duration := none
    debug := false
    shared := false
    local_endpoint := none
    remote_endpoint := none
    annots := []
    tags := [] }

/-! ### Wire serialization of durations and timestamps
(zipkin-types/src/lib.rs, modules `duration_micros` and `time_micros`).
The u64 arithmetic `duration.as_secs() * 1_000_000 + subsec_nanos / 1_000`
is modelled with an explicit `% 2 ^ 64`. -/

namespace duration_micros

/-- `duration_micros::to_wire`: microseconds computed with truncating
(`/ 1_000`) division of the subsecond nanos, clamped below by 1. -/
def to_wire (d : Duration) : Nat :=
  let micros := (d.secs * 1000000 + d.subsec_nanos / 1000) % 2 ^ 64
  Nat.max micros 1

end duration_micros

namespace time_micros

/-- `time_micros::to_wire`: `duration_since(UNIX_EPOCH)` yields the elapsed
duration for times at or after the epoch and errors before it, which
`unwrap_or` replaces by the zero duration; the result is then serialized
exactly like a duration. The `SystemTime` is an `Int` of nanoseconds
relative to the epoch. -/
def to_wire (t : Int) : Nat :=
  let since_epoch : Nat := if 0 ≤ t then t.toNat else 0
  duration_micros.to_wire ⟨since_epoch / 1000000000, since_epoch % 1000000000⟩

end time_micros

end types

/-! ### Samplers (zipkin/src/sample.rs)

`RandomSampler::sample` draws `rand::random::<f32>()`, a uniform value in
[0, 1); the draw is made an explicit argument `r`.  The f32 values and
comparisons involved are exact order comparisons, modelled on `ℚ`.
`RandomSampler::new` asserts `rate >= 0. && rate <= 1.` (`none` = panic). -/

namespace sample

structure RandomSampler where
  rate : ℚ
deriving DecidableEq, Repr

def RandomSampler.new (rate : ℚ) : Option RandomSampler :=
  if 0 ≤ rate ∧ rate ≤ 1 then some { rate := rate } else none

/-- `impl Sample for RandomSampler`: returns `rand::random::<f32>() > self.rate`
with the random draw `r` passed explicitly (the trace id is ignored). -/
def RandomSampler.sampleDraw (s : RandomSampler) (r : ℚ) : Bool :=
  decide (r > s.rate)

end sample

/-! ### The thread-local current-context cell (zipkin/src/current.rs)

The thread-local `CURRENT: Cell<Option<TraceContext>>` is made an explicit
value of type `Option TraceContext` that each operation consumes and
returns. -/

namespace current

/-- `CurrentGuard`: holds the previous contents of the cell. -/
structure CurrentGuard where
  prev : Option TraceContext
deriving DecidableEq, Repr

/-- `set_current`: `CURRENT.replace(Some(context))` — the new cell value is
`some context` and the guard captures the old value. Returns the guard and
the new cell contents. -/
def set_current (context : TraceContext) (cell : Option TraceContext) :
    CurrentGuard × Option TraceContext :=
  ({ prev := cell }, some context)

/-- `current()`: reads the cell. -/
def currentRead (cell : Option TraceContext) : Option TraceContext := cell

/-- `impl Drop for CurrentGuard`: `CURRENT.with(|c| c.set(self.prev))` —
writes the captured previous value back, whatever the cell holds now. -/
def dropGuard (g : CurrentGuard) (_cell : Option TraceContext) : Option TraceContext :=
  g.prev

end current

/-! ### The tracer (zipkin/src/tracer.rs)

The randomness of `rand::thread_rng().fill_bytes(&mut id)` is made an
explicit argument `id` (the 8 generated bytes), the sampler is a function
`TraceId → Bool`, and the two clock reads `SystemTime::now()` /
`Instant::now()` are explicit arguments.  The `CurrentGuard` owned by an
`OpenSpan` manipulates thread-local state that no claim about this file
mentions, so `new_span` is modelled without it. -/

namespace tracer

/-- `Endpoint` of zipkin/src/endpoint.rs (the `zipkin` crate's own
endpoint type: mandatory service name, optional addresses). -/
structure Endpoint where
  service_name : String
  ipv4 : Option Nat
  ipv6 : Option Nat
  port : Option Nat
deriving DecidableEq, Repr

/-- Modelled from the spec: the `Annotation` type of the `zipkin` crate
(its annotation.rs is not part of the sources; §3 of the spec gives
`{timestamp, value}` and the tracer builds it with an optional timestamp
and the local endpoint). -/
structure Annot where
  timestamp : Option Int
  value : String
  endpoint : Option Endpoint
deriving DecidableEq, Repr

/-- `BinaryAnnotation` of zipkin/src/binary_annotation.rs. -/
structure BinaryAnnot where
  key : String
  value : String
  endpoint : Option Endpoint
deriving DecidableEq, Repr

/-- The private `Kind` enum of zipkin/src/tracer.rs. -/
inductive Kind where
  | client
  | server
  | local
deriving DecidableEq, Repr

def CS_SET : Nat := 1
def CR_SET : Nat := 2
def SR_SET : Nat := 4
def SS_SET : Nat := 8
def LC_SET : Nat := 16

/-- The payload of `SpanState::Real`. -/
structure RealState where
  name : String
  start_time : Int
  start_instant : Nat
  shared : Bool
  kind : Kind
  annots : List Annot
  binary_annots : List BinaryAnnot
  annotation_set : Nat
deriving DecidableEq, Repr

inductive SpanState where
  | real (r : RealState)
  | nop
deriving DecidableEq, Repr

/-- `OpenSpan` without its thread-confined `CurrentGuard`. -/
structure OpenSpan where
  context : TraceContext
  state : SpanState
deriving DecidableEq, Repr

/-- `Tracer::new_span` (minus the current-context guard it acquires). -/
def new_span (context : TraceContext) (state : SpanState) : OpenSpan :=
  { context := context, state := state }

/-- `Tracer::next_context` with the 8 random bytes passed in as `id`. -/
def next_context (parent : Option TraceContext) (sampled : Option Bool) (debug : Bool)
    (id : List Nat) : TraceContext :=
  match parent with
  | some parent =>
    let b := TraceContext.builder.setParentId parent.span_id
    let sampled := parent.sampled
    let debug := parent.debug
    let b := b.setDebug debug
    let b := match sampled with
      | some s => b.setSampled s
      | none => b
    b.build parent.trace_id (SpanId.mk id)
  | none =>
    let b := (TraceContext.builder : trace_context.Builder).setDebug debug
    let b := match sampled with
      | some s => b.setSampled s
      | none => b
    b.build (TraceId.short id) (SpanId.mk id)

/-- `Tracer::ensure_sampled`: an undecided context gets the sampler's
decision written into its flags (and loses `shared`); a context sampled
out becomes a `Nop` span, anything else a `Real` one. -/
def ensure_sampled (sampler : TraceId → Bool) (name : String) (context : TraceContext)
    (shared : Bool) (now_sys : Int) (now_inst : Nat) : OpenSpan :=
  let cs : TraceContext × Bool :=
    match context.flags.sampled with
    | none =>
      ({ context with flags := { context.flags with sampled := some (sampler context.trace_id) } },
        false)
    | some _ => (context, shared)
  let context := cs.1
  let shared := cs.2
  let state :=
    match context.flags.sampled with
    | some false => SpanState.nop
    | _ => SpanState.real
        { name := name
          start_time := now_sys
          start_instant := now_inst
          shared := shared
          kind := Kind.local
          annots := []
          binary_annots := []
          annotation_set := 0 }
  new_span context state

/-- `Tracer::new_trace`. -/
def new_trace (sampler : TraceId → Bool) (name : String) (id : List Nat)
    (now_sys : Int) (now_inst : Nat) : OpenSpan :=
  ensure_sampled sampler name (next_context none none false id) false now_sys now_inst

/-- `Tracer::join_trace`. -/
def join_trace (sampler : TraceId → Bool) (name : String) (context : TraceContext)
    (now_sys : Int) (now_inst : Nat) : OpenSpan :=
  ensure_sampled sampler name context true now_sys now_inst

/-- `Tracer::new_child`: a parent sampled out short-circuits to a `Nop`
span that keeps the parent context; otherwise a fresh child context goes
through `ensure_sampled`. -/
def new_child (sampler : TraceId → Bool) (name : String) (parent : TraceContext)
    (id : List Nat) (now_sys : Int) (now_inst : Nat) : OpenSpan :=
  if parent.sampled = some false then new_span parent SpanState.nop
  else
    ensure_sampled sampler name (next_context (some parent) parent.sampled parent.debug id)
      false now_sys now_inst

/-- `OpenSpan::server`. -/
def OpenSpan.server (s : OpenSpan) : OpenSpan :=
  match s.state with
  | .real r => { s with state := .real ({ r with kind := Kind.server }) }
  | .nop => s

/-- `OpenSpan::client`. -/
def OpenSpan.client (s : OpenSpan) : OpenSpan :=
  match s.state with
  | .real r => { s with state := .real ({ r with kind := Kind.client }) }
  | .nop => s

/-- `OpenSpan::annotate` (the local endpoint comes from the tracer). -/
def OpenSpan.annotate (s : OpenSpan) (local_endpoint : Endpoint) (value : String) : OpenSpan :=
  match s.state with
  | .real r =>
    let set :=
      if value = "cs" then r.annotation_set ||| CS_SET
      else if value = "cr" then r.annotation_set ||| CR_SET
      else if value = "sr" then r.annotation_set ||| SR_SET
      else if value = "ss" then r.annotation_set ||| SS_SET
      else r.annotation_set
    let r2 := { r with
      annotation_set := set
      annots := r.annots ++ [{ timestamp := none
                               value := value
                               endpoint := some local_endpoint }] }
    { s with state := .real r2 }
  | .nop => s

/-- `OpenSpan::tag`. -/
def OpenSpan.tag (s : OpenSpan) (local_endpoint : Endpoint) (key : String) (value : String) :
    OpenSpan :=
  match s.state with
  | .real r =>
    let set := if key = "lc" then r.annotation_set ||| LC_SET else r.annotation_set
    let r2 := { r with
      annotation_set := set
      binary_annots := r.binary_annots ++ [{ key := key
                                             value := value
                                             endpoint := some local_endpoint }] }
    { s with state := .real r2 }
  | .nop => s

/-- The span record assembled by `impl Drop for OpenSpan` and handed to the
reporter.  The `span::Builder` revision used by tracer.rs (the one with
binary annotations whose `build` takes trace id, name and span id) is not
among the sources, so the record collects exactly the fields that Drop
sets on it. -/
structure ReportedSpan where
  trace_id : TraceId
  name : String
  span_id : SpanId
  parent_id : Option SpanId
  timestamp : Option Int
  duration : Option Nat
  annots : List Annot
  binary_annots : List BinaryAnnot
deriving DecidableEq, Repr

/-- `impl Drop for OpenSpan`: a `Nop` span reports nothing; a `Real` span
is finalized (timestamp/duration unless shared, default annotations per
kind unless already set) and handed to the reporter. `now_inst` is the
monotonic instant at drop time. -/
def dropReport (s : OpenSpan) (local_endpoint : Endpoint) (now_inst : Nat) :
    Option ReportedSpan :=
  match s.state with
  | .nop => none
  | .real r =>
    let defaults : List Annot × List BinaryAnnot :=
      match r.kind with
      | .client =>
        ((if r.annotation_set &&& CS_SET = 0
            then [{ timestamp := some r.start_time
                    value := "cs"
                    endpoint := some local_endpoint }] else []) ++
         (if r.annotation_set &&& CR_SET = 0
            then [{ timestamp := none
                    value := "cr"
                    endpoint := some local_endpoint }] else []), [])
      | .server =>
        ((if r.annotation_set &&& SR_SET = 0
            then [{ timestamp := some r.start_time
                    value := "sr"
                    endpoint := some local_endpoint }] else []) ++
         (if r.annotation_set &&& SS_SET = 0
            then [{ timestamp := none
                    value := "ss"
                    endpoint := some local_endpoint }] else []), [])
      | .local =>
        ([], if r.annotation_set &&& LC_SET = 0
          then [{ key := "lc"
                  value := ""
                  endpoint := some local_endpoint }] else [])
    some
      { trace_id := s.context.trace_id
        name := r.name
        span_id := s.context.span_id
        parent_id := s.context.parent_id
        timestamp := if r.shared then none else some r.start_time
        duration := if r.shared then none else some (now_inst - r.start_instant)
        annots := defaults.1 ++ r.annots
        binary_annots := defaults.2 ++ r.binary_annots }

end tracer

/-! ### The B3 HTTP header codec (http-zipkin/src/lib.rs)

`HeaderMap` is modelled as an association list from header names to
values; `insert` replaces any existing entry of the same name, `get`
yields the value stored for a name. Header values are `List Char`.
The `TraceContext` builder used by the getters is the one of
zipkin-types/src/trace_context.rs; on every path it has its trace and
span ids set before `build()` is called, so the context record is
assembled directly. -/

namespace http_zipkin

def X_B3_SAMPLED : String := "X-B3-Sampled"
def X_B3_FLAGS : String := "X-B3-Flags"
def X_B3_TRACEID : String := "X-B3-TraceId"
def X_B3_PARENTSPANID : String := "X-B3-ParentSpanId"
def X_B3_SPANID : String := "X-B3-SpanId"
def B3 : String := "b3"

def HeaderMap : Type := List (String × List Char)

instance : DecidableEq HeaderMap := by unfold HeaderMap; infer_instance

/-- The empty header map. -/
def emptyHeaders : HeaderMap := []

/-- `HeaderMap::insert`: stores `v` under `name`, dropping any previous
entry for that name. -/
def insertH (name : String) (v : List Char) (h : HeaderMap) : HeaderMap :=
  (name, v) :: (h : List (String × List Char)).filter fun p => p.1 ≠ name

/-- `HeaderMap::remove`. -/
def removeH (name : String) (h : HeaderMap) : HeaderMap :=
  (h : List (String × List Char)).filter fun p => p.1 ≠ name

/-- `HeaderMap::get`. -/
def getH (name : String) (h : HeaderMap) : Option (List Char) :=
  ((h : List (String × List Char)).find? fun p => p.1 = name).map Prod.snd

/-- `set_sampling_flags`. -/
def set_sampling_flags (flags : SamplingFlags) (headers : HeaderMap) : HeaderMap :=
  if flags.debug then
    removeH X_B3_SAMPLED (insertH X_B3_FLAGS ['1'] headers)
  else
    let headers := removeH X_B3_FLAGS headers
    match flags.sampled with
    | some true => insertH X_B3_SAMPLED ['1'] headers
    | some false => insertH X_B3_SAMPLED ['0'] headers
    | none => removeH X_B3_SAMPLED headers

/-- `set_sampling_flags_single`. -/
def set_sampling_flags_single (flags : SamplingFlags) (headers : HeaderMap) : HeaderMap :=
  if flags.debug then insertH B3 ['d'] headers
  else if flags.sampled = some true then insertH B3 ['1'] headers
  else if flags.sampled = some false then insertH B3 ['0'] headers
  else removeH B3 headers

/-- `set_trace_context_single`: writes the `b3` value
`trace-span[-d|-1|-0][-parent]`. -/
def set_trace_context_single (context : TraceContext) (headers : HeaderMap) : HeaderMap :=
  let value := context.trace_id.display ++ '-' :: context.span_id.display
  let value := value ++
    (if context.debug then ['-', 'd']
     else if context.sampled = some true then ['-', '1']
     else if context.sampled = some false then ['-', '0']
     else [])
  let value := value ++
    (match context.parent_id with
     | some parent_id => '-' :: parent_id.display
     | none => [])
  insertH B3 value headers

/-- `set_trace_context`: the multi-header form. -/
def set_trace_context (context : TraceContext) (headers : HeaderMap) : HeaderMap :=
  let headers := set_sampling_flags context.flags headers
  let headers := insertH X_B3_TRACEID context.trace_id.display headers
  let headers :=
    match context.parent_id with
    | some parent_id => insertH X_B3_PARENTSPANID parent_id.display headers
    | none => removeH X_B3_PARENTSPANID headers
  insertH X_B3_SPANID context.span_id.display headers

/-- `get_trace_context_single`: parses a `b3` value. The third dash-
separated field is a sampling token when it is `d`/`1`/`0` and a parent
span id otherwise. -/
def get_trace_context_single (value : List Char) : Option TraceContext :=
  match splitDash value with
  | [] => none
  | p0 :: rest0 =>
    match TraceId.from_str p0 with
    | none => none
    | some trace_id =>
      match rest0 with
      | [] => none
      | p1 :: rest1 =>
        match SpanId.from_str p1 with
        | none => none
        | some span_id =>
          match rest1 with
          | [] =>
            some { trace_id := trace_id
                   parent_id := none
                   span_id := span_id
                   flags := SamplingFlags.builder.build }
          | maybe_sampling :: rest2 =>
            let fb : sampling_flags.Builder × Option (List Char) :=
              if maybe_sampling = ['d'] then (SamplingFlags.builder.setDebug true, rest2.head?)
              else if maybe_sampling = ['1'] then
                (SamplingFlags.builder.setSampled true, rest2.head?)
              else if maybe_sampling = ['0'] then
                (SamplingFlags.builder.setSampled false, rest2.head?)
              else (SamplingFlags.builder, some maybe_sampling)
            match fb.2 with
            | none =>
              some { trace_id := trace_id
                     parent_id := none
                     span_id := span_id
                     flags := fb.1.build }
            | some pstr =>
              match SpanId.from_str pstr with
              | none => none
              | some parent_id =>
                some { trace_id := trace_id
                       parent_id := some parent_id
                       span_id := span_id
                       flags := fb.1.build }

/-- `get_sampling_flags_single`. -/
def get_sampling_flags_single (value : List Char) : SamplingFlags :=
  if value = ['d'] then (SamplingFlags.builder.setDebug true).build
  else if value = ['1'] then (SamplingFlags.builder.setSampled true).build
  else if value = ['0'] then (SamplingFlags.builder.setSampled false).build
  else
    match get_trace_context_single value with
    | some context => context.flags
    | none => SamplingFlags.builder.build

/-- `get_sampling_flags_multi`. -/
def get_sampling_flags_multi (headers : HeaderMap) : SamplingFlags :=
  match getH X_B3_FLAGS headers with
  | some flags =>
    (if flags = ['1'] then SamplingFlags.builder.setDebug true else SamplingFlags.builder).build
  | none =>
    match getH X_B3_SAMPLED headers with
    | some sampled =>
      (if sampled = ['1'] then SamplingFlags.builder.setSampled true
       else if sampled = ['0'] then SamplingFlags.builder.setSampled false
       else SamplingFlags.builder).build
    | none => SamplingFlags.builder.build

/-- `get_sampling_flags`: the `b3` header wins when present. -/
def get_sampling_flags (headers : HeaderMap) : SamplingFlags :=
  match getH B3 headers with
  | some value => get_sampling_flags_single value
  | none => get_sampling_flags_multi headers

/-- `parse_header`: reads and parses one header value. -/
def parse_header (parse : List Char → Option α) (headers : HeaderMap) (name : String) :
    Option α :=
  (getH name headers).bind parse

/-- `get_trace_context_multi`. -/
def get_trace_context_multi (headers : HeaderMap) : Option TraceContext :=
  match parse_header TraceId.from_str headers X_B3_TRACEID with
  | none => none
  | some trace_id =>
    match parse_header SpanId.from_str headers X_B3_SPANID with
    | none => none
    | some span_id =>
      some { trace_id := trace_id
             parent_id := parse_header SpanId.from_str headers X_B3_PARENTSPANID
             span_id := span_id
             flags := (sampling_flags.Builder.ofFlags (get_sampling_flags_multi headers)).build }

/-- `get_trace_context`: the `b3` header wins when present. -/
def get_trace_context (headers : HeaderMap) : Option TraceContext :=
  match getH B3 headers with
  | some value => get_trace_context_single value
  | none => get_trace_context_multi headers

end http_zipkin

/-! ### The HTTP reporter (zipkin-reporter-http)

The claims about it concern how the background worker classifies one
HTTP exchange: the response future resolves either to a status code or
to a transport (hyper) error carrying an underlying cause. -/

namespace reporter

/-- A transport-level (hyper) failure; the cause is kept opaque. -/
structure HyperError where
  cause : String
deriving DecidableEq, Repr

/-- `ErrorInner` of zipkin-reporter-http/src/error.rs. -/
inductive ErrorInner where
  | hyper (e : HyperError)
  | http (status : Nat)
deriving DecidableEq, Repr

/-- `Error` of zipkin-reporter-http/src/error.rs. -/
structure Error where
  inner : ErrorInner
deriving DecidableEq, Repr

/-- `Error::status_code`. -/
def Error.status_code (e : Error) : Option Nat :=
  match e.inner with
  | .http status => some status
  | _ => none

/-- `Error::cause` (`impl error::Error`): only a hyper error has one. -/
def Error.causeOf (e : Error) : Option HyperError :=
  match e.inner with
  | .hyper he => some he
  | _ => none

/-- `http::StatusCode::is_success`: the 2xx range. -/
def is_success (status : Nat) : Bool :=
  decide (200 ≤ status ∧ status < 300)

/-- The response classification in `Builder::build`
(zipkin-reporter-http/src/lib.rs): a resolved response is success iff its
status is 2xx, otherwise an http error with that status; a failed request
becomes a hyper error wrapping the cause. -/
def handle_response (response : Except HyperError Nat) : Except Error Unit :=
  match response with
  | .ok r => if is_success r then .ok () else .error { inner := .http r }
  | .error e => .error { inner := .hyper e }

end reporter

/-! ### Lemmas for the header codec round-trip -/

namespace http_zipkin

theorem getH_empty (n : String) : getH n emptyHeaders = none := rfl

theorem getH_insertH_same (n : String) (v : List Char) (h : HeaderMap) :
    getH n (insertH n v h) = some v := by
  simp [getH, insertH, List.find?]

theorem find_fst_filter_ne (n m : String) (hnm : n ≠ m) (l : List (String × List Char)) :
    (l.filter fun p => p.1 ≠ m).find? (fun p => p.1 = n)
      = l.find? (fun p => p.1 = n) := by
  induction l with
  | nil => rfl
  | cons a l ih =>
    obtain ⟨a1, a2⟩ := a
    rw [List.filter_cons]
    by_cases ham : a1 = m
    · rw [if_neg (by simp [ham])]
      rw [List.find?_cons_of_neg _ (by simp [ham]; exact Ne.symm hnm)]
      exact ih
    · rw [if_pos (by simp [ham])]
      by_cases han : a1 = n
      · rw [List.find?_cons_of_pos _ (by simp [han]),
          List.find?_cons_of_pos _ (by simp [han])]
      · rw [List.find?_cons_of_neg _ (by simp [han]),
          List.find?_cons_of_neg _ (by simp [han])]
        exact ih

theorem getH_insertH_ne (n m : String) (v : List Char) (h : HeaderMap) (hnm : n ≠ m) :
    getH n (insertH m v h) = getH n h := by
  unfold getH insertH
  rw [List.find?_cons_of_neg _ (by simp [Ne.symm hnm])]
  rw [find_fst_filter_ne n m hnm]

theorem getH_removeH_same (n : String) (h : HeaderMap) :
    getH n (removeH n h) = none := by
  unfold getH removeH
  rw [List.find?_eq_none.mpr]
  · rfl
  · intro p hp
    have := List.of_mem_filter hp
    simpa using this

theorem getH_removeH_ne (n m : String) (h : HeaderMap) (hnm : n ≠ m) :
    getH n (removeH m h) = getH n h := by
  unfold getH removeH
  rw [find_fst_filter_ne n m hnm]

end http_zipkin


theorem SpanId.display_span_ne_dash (s : SpanId) (h : s.wf) : ∀ c ∈ s.display, c ≠ '-' :=
  renderBytes_ne_dash _ h.2

theorem TraceId.display_trace_ne_dash (t : TraceId) (h : t.wf) : ∀ c ∈ t.display, c ≠ '-' := by
  cases t with
  | short b => exact renderBytes_ne_dash _ h.2
  | long b => exact renderBytes_ne_dash _ h.2

theorem SpanId.display_length (s : SpanId) (h : s.wf) : s.display.length = 16 := by
  rw [SpanId.display, length_renderBytes, h.1]

theorem SpanId.display_ne_singleton (s : SpanId) (h : s.wf) (c : Char) : s.display ≠ [c] := by
  intro contra
  have := congrArg List.length contra
  rw [SpanId.display_length s h] at this
  simp at this

theorem build_ofFlags (f : SamplingFlags) (hf : f.debug = true → f.sampled = some true) :
    (sampling_flags.Builder.ofFlags f).build = f := by
  obtain ⟨fs, fd⟩ := f
  cases fd
  · rfl
  · have := hf rfl
    simp only [SamplingFlags.sampled] at this
    subst this
    rfl

namespace http_zipkin

theorem getH_set_sampling_flags_other (n : String) (f : SamplingFlags) (h : HeaderMap)
    (hn1 : n ≠ X_B3_FLAGS) (hn2 : n ≠ X_B3_SAMPLED) :
    getH n (set_sampling_flags f h) = getH n h := by
  obtain ⟨fs, fd⟩ := f
  cases fd
  · rcases fs with _ | b
    · rw [show set_sampling_flags ⟨none, false⟩ h
          = removeH X_B3_SAMPLED (removeH X_B3_FLAGS h) from rfl,
        getH_removeH_ne _ _ _ hn2, getH_removeH_ne _ _ _ hn1]
    · cases b
      · rw [show set_sampling_flags ⟨some false, false⟩ h
            = insertH X_B3_SAMPLED ['0'] (removeH X_B3_FLAGS h) from rfl,
          getH_insertH_ne _ _ _ _ hn2, getH_removeH_ne _ _ _ hn1]
      · rw [show set_sampling_flags ⟨some true, false⟩ h
            = insertH X_B3_SAMPLED ['1'] (removeH X_B3_FLAGS h) from rfl,
          getH_insertH_ne _ _ _ _ hn2, getH_removeH_ne _ _ _ hn1]
  · rw [show set_sampling_flags ⟨fs, true⟩ h
        = removeH X_B3_SAMPLED (insertH X_B3_FLAGS ['1'] h) from rfl,
      getH_removeH_ne _ _ _ hn2, getH_insertH_ne _ _ _ _ hn1]

theorem getH_flags_set_empty (f : SamplingFlags) :
    getH X_B3_FLAGS (set_sampling_flags f emptyHeaders)
      = if f.debug then some ['1'] else none := by
  obtain ⟨fs, fd⟩ := f
  cases fd
  · rcases fs with _ | b
    · rfl
    · cases b <;> rfl
  · rfl

theorem getH_sampled_set_empty (f : SamplingFlags) :
    getH X_B3_SAMPLED (set_sampling_flags f emptyHeaders)
      = if f.debug then none else
          match f.sampled with
          | some true => some ['1']
          | some false => some ['0']
          | none => none := by
  obtain ⟨fs, fd⟩ := f
  cases fd
  · rcases fs with _ | b
    · rfl
    · cases b <;> rfl
  · rfl

theorem get_sampling_flags_multi_of_lookups (h : HeaderMap) (f : SamplingFlags)
    (hf : f.debug = true → f.sampled = some true)
    (hF : getH X_B3_FLAGS h = if f.debug then some ['1'] else none)
    (hS : getH X_B3_SAMPLED h = if f.debug then none else
      match f.sampled with
      | some true => some ['1']
      | some false => some ['0']
      | none => none) :
    get_sampling_flags_multi h = f := by
  obtain ⟨fs, fd⟩ := f
  cases fd
  · rcases fs with _ | b
    · rw [get_sampling_flags_multi, hF, hS]
      rfl
    · cases b
      · rw [get_sampling_flags_multi, hF, hS]
        rfl
      · rw [get_sampling_flags_multi, hF, hS]
        rfl
  · have := hf rfl
    simp only [SamplingFlags.sampled] at this
    subst this
    rw [get_sampling_flags_multi, hF]
    rfl

end http_zipkin

namespace http_zipkin

theorem roundtrip_context_multi (c : TraceContext) (h1 : c.trace_id.wf) (h2 : c.span_id.wf)
    (h3 : ∀ p, c.parent_id = some p → p.wf)
    (hcf : c.flags.debug = true → c.flags.sampled = some true) :
    get_trace_context (set_trace_context c emptyHeaders) = some c := by
  obtain ⟨tid, pid, sid, f⟩ := c
  rcases pid with _ | p
  · have hmap : set_trace_context ⟨tid, none, sid, f⟩ emptyHeaders
        = insertH X_B3_SPANID sid.display
            (removeH X_B3_PARENTSPANID
              (insertH X_B3_TRACEID tid.display
                (set_sampling_flags f emptyHeaders))) := rfl
    rw [hmap]
    have hB3 : getH B3 (insertH X_B3_SPANID sid.display
        (removeH X_B3_PARENTSPANID
          (insertH X_B3_TRACEID tid.display
            (set_sampling_flags f emptyHeaders)))) = none := by
      rw [getH_insertH_ne B3 X_B3_SPANID _ _ (by decide),
        getH_removeH_ne B3 X_B3_PARENTSPANID _ (by decide),
        getH_insertH_ne B3 X_B3_TRACEID _ _ (by decide),
        getH_set_sampling_flags_other B3 f _ (by decide) (by decide)]
      rfl
    have hT : getH X_B3_TRACEID (insertH X_B3_SPANID sid.display
        (removeH X_B3_PARENTSPANID
          (insertH X_B3_TRACEID tid.display
            (set_sampling_flags f emptyHeaders)))) = some tid.display := by
      rw [getH_insertH_ne X_B3_TRACEID X_B3_SPANID _ _ (by decide),
        getH_removeH_ne X_B3_TRACEID X_B3_PARENTSPANID _ (by decide),
        getH_insertH_same]
    have hS : getH X_B3_SPANID (insertH X_B3_SPANID sid.display
        (removeH X_B3_PARENTSPANID
          (insertH X_B3_TRACEID tid.display
            (set_sampling_flags f emptyHeaders)))) = some sid.display :=
      getH_insertH_same _ _ _
    have hP : getH X_B3_PARENTSPANID (insertH X_B3_SPANID sid.display
        (removeH X_B3_PARENTSPANID
          (insertH X_B3_TRACEID tid.display
            (set_sampling_flags f emptyHeaders)))) = none := by
      rw [getH_insertH_ne X_B3_PARENTSPANID X_B3_SPANID _ _ (by decide),
        getH_removeH_same]
    have hF : getH X_B3_FLAGS (insertH X_B3_SPANID sid.display
        (removeH X_B3_PARENTSPANID
          (insertH X_B3_TRACEID tid.display
            (set_sampling_flags f emptyHeaders))))
        = if f.debug then some ['1'] else none := by
      rw [getH_insertH_ne X_B3_FLAGS X_B3_SPANID _ _ (by decide),
        getH_removeH_ne X_B3_FLAGS X_B3_PARENTSPANID _ (by decide),
        getH_insertH_ne X_B3_FLAGS X_B3_TRACEID _ _ (by decide),
        getH_flags_set_empty]
    have hSa : getH X_B3_SAMPLED (insertH X_B3_SPANID sid.display
        (removeH X_B3_PARENTSPANID
          (insertH X_B3_TRACEID tid.display
            (set_sampling_flags f emptyHeaders))))
        = if f.debug then none else
            match f.sampled with
            | some true => some ['1']
            | some false => some ['0']
            | none => none := by
      rw [getH_insertH_ne X_B3_SAMPLED X_B3_SPANID _ _ (by decide),
        getH_removeH_ne X_B3_SAMPLED X_B3_PARENTSPANID _ (by decide),
        getH_insertH_ne X_B3_SAMPLED X_B3_TRACEID _ _ (by decide),
        getH_sampled_set_empty]
    have hFl := get_sampling_flags_multi_of_lookups _ f hcf hF hSa
    simp only [get_trace_context, hB3]
    simp only [get_trace_context_multi, parse_header, hT, hS, hP, Option.some_bind,
      Option.none_bind, TraceId.from_str_display_trace _ h1, SpanId.from_str_display_span _ h2, hFl,
      build_ofFlags f hcf]
  · have hp : p.wf := h3 p rfl
    have hmap : set_trace_context ⟨tid, some p, sid, f⟩ emptyHeaders
        = insertH X_B3_SPANID sid.display
            (insertH X_B3_PARENTSPANID p.display
              (insertH X_B3_TRACEID tid.display
                (set_sampling_flags f emptyHeaders))) := rfl
    rw [hmap]
    have hB3 : getH B3 (insertH X_B3_SPANID sid.display
        (insertH X_B3_PARENTSPANID p.display
          (insertH X_B3_TRACEID tid.display
            (set_sampling_flags f emptyHeaders)))) = none := by
      rw [getH_insertH_ne B3 X_B3_SPANID _ _ (by decide),
        getH_insertH_ne B3 X_B3_PARENTSPANID _ _ (by decide),
        getH_insertH_ne B3 X_B3_TRACEID _ _ (by decide),
        getH_set_sampling_flags_other B3 f _ (by decide) (by decide)]
      rfl
    have hT : getH X_B3_TRACEID (insertH X_B3_SPANID sid.display
        (insertH X_B3_PARENTSPANID p.display
          (insertH X_B3_TRACEID tid.display
            (set_sampling_flags f emptyHeaders)))) = some tid.display := by
      rw [getH_insertH_ne X_B3_TRACEID X_B3_SPANID _ _ (by decide),
        getH_insertH_ne X_B3_TRACEID X_B3_PARENTSPANID _ _ (by decide),
        getH_insertH_same]
    have hS : getH X_B3_SPANID (insertH X_B3_SPANID sid.display
        (insertH X_B3_PARENTSPANID p.display
          (insertH X_B3_TRACEID tid.display
            (set_sampling_flags f emptyHeaders)))) = some sid.display :=
      getH_insertH_same _ _ _
    have hP : getH X_B3_PARENTSPANID (insertH X_B3_SPANID sid.display
        (insertH X_B3_PARENTSPANID p.display
          (insertH X_B3_TRACEID tid.display
            (set_sampling_flags f emptyHeaders)))) = some p.display := by
      rw [getH_insertH_ne X_B3_PARENTSPANID X_B3_SPANID _ _ (by decide),
        getH_insertH_same]
    have hF : getH X_B3_FLAGS (insertH X_B3_SPANID sid.display
        (insertH X_B3_PARENTSPANID p.display
          (insertH X_B3_TRACEID tid.display
            (set_sampling_flags f emptyHeaders))))
        = if f.debug then some ['1'] else none := by
      rw [getH_insertH_ne X_B3_FLAGS X_B3_SPANID _ _ (by decide),
        getH_insertH_ne X_B3_FLAGS X_B3_PARENTSPANID _ _ (by decide),
        getH_insertH_ne X_B3_FLAGS X_B3_TRACEID _ _ (by decide),
        getH_flags_set_empty]
    have hSa : getH X_B3_SAMPLED (insertH X_B3_SPANID sid.display
        (insertH X_B3_PARENTSPANID p.display
          (insertH X_B3_TRACEID tid.display
            (set_sampling_flags f emptyHeaders))))
        = if f.debug then none else
            match f.sampled with
            | some true => some ['1']
            | some false => some ['0']
            | none => none := by
      rw [getH_insertH_ne X_B3_SAMPLED X_B3_SPANID _ _ (by decide),
        getH_insertH_ne X_B3_SAMPLED X_B3_PARENTSPANID _ _ (by decide),
        getH_insertH_ne X_B3_SAMPLED X_B3_TRACEID _ _ (by decide),
        getH_sampled_set_empty]
    have hFl := get_sampling_flags_multi_of_lookups _ f hcf hF hSa
    simp only [get_trace_context, hB3]
    simp only [get_trace_context_multi, parse_header, hT, hS, hP, Option.some_bind,
      Option.none_bind, TraceId.from_str_display_trace _ h1, SpanId.from_str_display_span _ h2,
      SpanId.from_str_display_span _ hp, hFl, build_ofFlags f hcf]

end http_zipkin

namespace http_zipkin

theorem splitDash_dash_cons (xs : List Char) : splitDash ('-' :: xs) = [] :: splitDash xs := by
  rw [splitDash, if_pos rfl]

theorem splitDash_char_dash (c : Char) (hc : c ≠ '-') (xs : List Char) :
    splitDash (c :: '-' :: xs) = [c] :: splitDash xs := by
  conv_lhs => rw [splitDash]
  rw [if_neg hc, splitDash_dash_cons]

theorem roundtrip_context_single (c : TraceContext) (h1 : c.trace_id.wf) (h2 : c.span_id.wf)
    (h3 : ∀ p, c.parent_id = some p → p.wf)
    (hcf : c.flags.debug = true → c.flags.sampled = some true) :
    get_trace_context (set_trace_context_single c emptyHeaders) = some c := by
  obtain ⟨tid, pid, sid, f⟩ := c
  obtain ⟨fs, fd⟩ := f
  have hTd := TraceId.display_trace_ne_dash tid h1
  have hSd := SpanId.display_span_ne_dash sid h2
  cases fd
  · rcases fs with _ | b
    · rcases pid with _ | p
      · -- undecided flags, no parent: b3 = trace-span
        have hmap : set_trace_context_single ⟨tid, none, sid, ⟨none, false⟩⟩ emptyHeaders
            = insertH B3 (((tid.display ++ '-' :: sid.display) ++ []) ++ []) emptyHeaders := rfl
        rw [hmap]
        simp only [get_trace_context, getH_insertH_same]
        have hsplit : splitDash (((tid.display ++ '-' :: sid.display) ++ []) ++ [])
            = [tid.display, sid.display] := by
          simp only [List.append_nil]
          rw [splitDash_append _ _ hTd, splitDash_no_dash _ hSd]
        simp only [get_trace_context_single, hsplit, TraceId.from_str_display_trace _ h1,
          SpanId.from_str_display_span _ h2]
        rfl
      · -- undecided flags, parent: b3 = trace-span-parent
        have hp : p.wf := h3 p rfl
        have hPd := SpanId.display_span_ne_dash p hp
        have hmap : set_trace_context_single ⟨tid, some p, sid, ⟨none, false⟩⟩ emptyHeaders
            = insertH B3 (((tid.display ++ '-' :: sid.display) ++ []) ++ '-' :: p.display)
                emptyHeaders := rfl
        rw [hmap]
        simp only [get_trace_context, getH_insertH_same]
        have hsplit : splitDash (((tid.display ++ '-' :: sid.display) ++ []) ++ '-' :: p.display)
            = [tid.display, sid.display, p.display] := by
          simp only [List.append_nil, List.append_assoc, List.cons_append]
          rw [splitDash_append _ _ hTd, splitDash_append _ _ hSd, splitDash_no_dash _ hPd]
        simp only [get_trace_context_single, hsplit, TraceId.from_str_display_trace _ h1,
          SpanId.from_str_display_span _ h2,
          if_neg (SpanId.display_ne_singleton p hp 'd'),
          if_neg (SpanId.display_ne_singleton p hp '1'),
          if_neg (SpanId.display_ne_singleton p hp '0'),
          SpanId.from_str_display_span _ hp]
        rfl
    · cases b
      · rcases pid with _ | p
        · -- sampled-out flags, no parent: b3 = trace-span-0
          have hmap : set_trace_context_single ⟨tid, none, sid, ⟨some false, false⟩⟩ emptyHeaders
              = insertH B3 (((tid.display ++ '-' :: sid.display) ++ ['-', '0']) ++ [])
                  emptyHeaders := rfl
          rw [hmap]
          simp only [get_trace_context, getH_insertH_same]
          have hsplit : splitDash (((tid.display ++ '-' :: sid.display) ++ ['-', '0']) ++ [])
              = [tid.display, sid.display, ['0']] := by
            simp only [List.append_nil, List.append_assoc, List.cons_append, List.nil_append]
            rw [splitDash_append _ _ hTd, splitDash_append _ _ hSd]
            rfl
          simp only [get_trace_context_single, hsplit, TraceId.from_str_display_trace _ h1,
            SpanId.from_str_display_span _ h2]
          rfl
        · -- sampled-out flags, parent: b3 = trace-span-0-parent
          have hp : p.wf := h3 p rfl
          have hPd := SpanId.display_span_ne_dash p hp
          have hmap : set_trace_context_single ⟨tid, some p, sid, ⟨some false, false⟩⟩
                emptyHeaders
              = insertH B3
                  (((tid.display ++ '-' :: sid.display) ++ ['-', '0']) ++ '-' :: p.display)
                  emptyHeaders := rfl
          rw [hmap]
          simp only [get_trace_context, getH_insertH_same]
          have hsplit : splitDash
                (((tid.display ++ '-' :: sid.display) ++ ['-', '0']) ++ '-' :: p.display)
              = [tid.display, sid.display, ['0'], p.display] := by
            simp only [List.append_assoc, List.cons_append, List.nil_append]
            rw [splitDash_append _ _ hTd, splitDash_append _ _ hSd,
              splitDash_char_dash '0' (by decide) p.display, splitDash_no_dash _ hPd]
          simp only [get_trace_context_single, hsplit, TraceId.from_str_display_trace _ h1,
            SpanId.from_str_display_span _ h2]
          simp [SpanId.from_str_display_span _ hp, SamplingFlags.builder,
            sampling_flags.Builder.setSampled, sampling_flags.Builder.setDebug,
            sampling_flags.Builder.build]
      · rcases pid with _ | p
        · -- sampled-in flags, no parent: b3 = trace-span-1
          have hmap : set_trace_context_single ⟨tid, none, sid, ⟨some true, false⟩⟩ emptyHeaders
              = insertH B3 (((tid.display ++ '-' :: sid.display) ++ ['-', '1']) ++ [])
                  emptyHeaders := rfl
          rw [hmap]
          simp only [get_trace_context, getH_insertH_same]
          have hsplit : splitDash (((tid.display ++ '-' :: sid.display) ++ ['-', '1']) ++ [])
              = [tid.display, sid.display, ['1']] := by
            simp only [List.append_nil, List.append_assoc, List.cons_append, List.nil_append]
            rw [splitDash_append _ _ hTd, splitDash_append _ _ hSd]
            rfl
          simp only [get_trace_context_single, hsplit, TraceId.from_str_display_trace _ h1,
            SpanId.from_str_display_span _ h2]
          rfl
        · -- sampled-in flags, parent: b3 = trace-span-1-parent
          have hp : p.wf := h3 p rfl
          have hPd := SpanId.display_span_ne_dash p hp
          have hmap : set_trace_context_single ⟨tid, some p, sid, ⟨some true, false⟩⟩
                emptyHeaders
              = insertH B3
                  (((tid.display ++ '-' :: sid.display) ++ ['-', '1']) ++ '-' :: p.display)
                  emptyHeaders := rfl
          rw [hmap]
          simp only [get_trace_context, getH_insertH_same]
          have hsplit : splitDash
                (((tid.display ++ '-' :: sid.display) ++ ['-', '1']) ++ '-' :: p.display)
              = [tid.display, sid.display, ['1'], p.display] := by
            simp only [List.append_assoc, List.cons_append, List.nil_append]
            rw [splitDash_append _ _ hTd, splitDash_append _ _ hSd,
              splitDash_char_dash '1' (by decide) p.display, splitDash_no_dash _ hPd]
          simp only [get_trace_context_single, hsplit, TraceId.from_str_display_trace _ h1,
            SpanId.from_str_display_span _ h2]
          simp [SpanId.from_str_display_span _ hp, SamplingFlags.builder,
            sampling_flags.Builder.setSampled, sampling_flags.Builder.setDebug,
            sampling_flags.Builder.build]
  · -- debug flags: hcf forces sampled = some true; the b3 value carries -d
    have hfs : fs = some true := by
      have := hcf rfl
      simpa using this
    subst hfs
    rcases pid with _ | p
    · have hmap : set_trace_context_single ⟨tid, none, sid, ⟨some true, true⟩⟩ emptyHeaders
          = insertH B3 (((tid.display ++ '-' :: sid.display) ++ ['-', 'd']) ++ [])
              emptyHeaders := rfl
      rw [hmap]
      simp only [get_trace_context, getH_insertH_same]
      have hsplit : splitDash (((tid.display ++ '-' :: sid.display) ++ ['-', 'd']) ++ [])
          = [tid.display, sid.display, ['d']] := by
        simp only [List.append_nil, List.append_assoc, List.cons_append, List.nil_append]
        rw [splitDash_append _ _ hTd, splitDash_append _ _ hSd]
        rfl
      simp only [get_trace_context_single, hsplit, TraceId.from_str_display_trace _ h1,
        SpanId.from_str_display_span _ h2]
      rfl
    · have hp : p.wf := h3 p rfl
      have hPd := SpanId.display_span_ne_dash p hp
      have hmap : set_trace_context_single ⟨tid, some p, sid, ⟨some true, true⟩⟩ emptyHeaders
          = insertH B3
              (((tid.display ++ '-' :: sid.display) ++ ['-', 'd']) ++ '-' :: p.display)
              emptyHeaders := rfl
      rw [hmap]
      simp only [get_trace_context, getH_insertH_same]
      have hsplit : splitDash
            (((tid.display ++ '-' :: sid.display) ++ ['-', 'd']) ++ '-' :: p.display)
          = [tid.display, sid.display, ['d'], p.display] := by
        simp only [List.append_assoc, List.cons_append, List.nil_append]
        rw [splitDash_append _ _ hTd, splitDash_append _ _ hSd,
          splitDash_char_dash 'd' (by decide) p.display, splitDash_no_dash _ hPd]
      simp only [get_trace_context_single, hsplit, TraceId.from_str_display_trace _ h1,
        SpanId.from_str_display_span _ h2]
      simp [SpanId.from_str_display_span _ hp, SamplingFlags.builder,
        sampling_flags.Builder.setSampled, sampling_flags.Builder.setDebug,
        sampling_flags.Builder.build]

end http_zipkin

namespace http_zipkin

theorem roundtrip_flags_multi (f : SamplingFlags) (hf : f.debug = true → f.sampled = some true) :
    get_sampling_flags (set_sampling_flags f emptyHeaders) = f := by
  obtain ⟨fs, fd⟩ := f
  cases fd
  · rcases fs with _ | b
    · decide
    · cases b <;> decide
  · have : fs = some true := by simpa using hf rfl
    subst this
    decide

theorem roundtrip_flags_single (f : SamplingFlags)
    (hf : f.debug = true → f.sampled = some true) :
    get_sampling_flags (set_sampling_flags_single f emptyHeaders) = f := by
  obtain ⟨fs, fd⟩ := f
  cases fd
  · rcases fs with _ | b
    · decide
    · cases b <;> decide
  · have : fs = some true := by simpa using hf rfl
    subst this
    decide

end http_zipkin

/-! ### Claims -/

/-- Claim C3: `set_current(ctx)` replaces the cell's value with `Some(ctx)`
(so `current()` then returns `Some(ctx)`) and captures the previous
contents `p` inside the returned guard; dropping the guard writes the
captured `p` back unconditionally, whatever the cell holds at drop time. -/
theorem set_current_spec (ctx : TraceContext) (p : Option TraceContext)
    (c : Option TraceContext) :
    (current.set_current ctx p).2 = some ctx ∧
    current.currentRead (current.set_current ctx p).2 = some ctx ∧
    (current.set_current ctx p).1.prev = p ∧
    current.dropGuard (current.set_current ctx p).1 c = p :=
  ⟨rfl, rfl, rfl, rfl⟩

/-- Claim C4 (code evaluated at the failing input): `RandomSampler::new(1.0)`
accepts the rate, yet `sample` with uniform draw r = 1/2 returns `false`
even though r < rate — the comparison in the source is `random > rate`,
the inverse of the claimed `r < rate`. At rate 1 no trace is ever
sampled. -/
theorem random_sampler_inverted :
    sample.RandomSampler.new 1 = some { rate := 1 } ∧
    sample.RandomSampler.sampleDraw { rate := 1 } (1 / 2) = false ∧
    ((1 : ℚ) / 2 < 1) ∧
    sample.RandomSampler.sampleDraw { rate := 0 } (1 / 2) = true := by
  refine ⟨?_, ?_, by norm_num, ?_⟩
  · rw [sample.RandomSampler.new, if_pos (by norm_num)]
  · rw [sample.RandomSampler.sampleDraw]; norm_num
  · rw [sample.RandomSampler.sampleDraw]; norm_num

/-- Claim C5 (counterexample): for the 1500 ns duration the wire value is
the floor 1, not the ceiling 2 = max(1, ⌈1500/1000⌉) the claim requires. -/
theorem duration_to_wire_not_ceiling :
    types.duration_micros.to_wire { secs := 0, subsec_nanos := 1500 } ≠
      Nat.max 1 ((0 * 1000000000 + 1500 + 999) / 1000) := by decide

/-- Claim C5 (amended): the wire value of a duration is the number of
microseconds rounded DOWN (truncating division), with a floor of 1:
`wire(d) = max(1, ⌊nanoseconds(d)/1000⌋)` (absent u64 overflow); in
particular every emitted duration is at least 1 microsecond. -/
theorem duration_to_wire_floor (d : types.Duration) (_h1 : d.subsec_nanos < 1000000000)
    (h2 : d.secs * 1000000 + d.subsec_nanos / 1000 < 2 ^ 64) :
    types.duration_micros.to_wire d = Nat.max 1 ((d.secs * 1000000000 + d.subsec_nanos) / 1000) ∧
    1 ≤ types.duration_micros.to_wire d := by
  have hdiv : (d.secs * 1000000000 + d.subsec_nanos) / 1000
      = d.secs * 1000000 + d.subsec_nanos / 1000 := by
    have h3 : d.secs * 1000000000 + d.subsec_nanos
        = d.subsec_nanos + d.secs * 1000000 * 1000 := by ring
    rw [h3, Nat.add_mul_div_right _ _ (by norm_num : (0:ℕ) < 1000), Nat.add_comm]
  constructor
  · rw [types.duration_micros.to_wire, hdiv, Nat.mod_eq_of_lt h2]
    exact Nat.max_comm _ 1
  · exact Nat.le_max_right _ 1

/-- Claim C5 (witness for the amended statement) at the 1500 ns duration. -/
theorem duration_to_wire_floor_witness :
    types.duration_micros.to_wire ⟨0, 1500⟩ = Nat.max 1 ((0 * 1000000000 + 1500) / 1000) ∧
    1 ≤ types.duration_micros.to_wire ⟨0, 1500⟩ :=
  duration_to_wire_floor ⟨0, 1500⟩ (by decide) (by decide)

/-- Claim C6 (counterexample): a `SystemTime` 5 ns before the Unix epoch
serializes as 1, not as 0 as the claim requires (the zero duration that
`unwrap_or` substitutes still passes through the `max(1)` of
`duration_micros::to_wire`). -/
theorem time_to_wire_pre_epoch_ne_zero : types.time_micros.to_wire (-5) ≠ 0 := by decide

/-- Claim C6 (amended): a timestamp at or after the epoch serializes as its
whole microseconds since the epoch clamped below by 1, and a timestamp
before the epoch serializes as 1 (not 0). -/
theorem time_to_wire_spec (t : Int) :
    (0 ≤ t → t.toNat / 1000 < 2 ^ 64 →
      types.time_micros.to_wire t = Nat.max 1 (t.toNat / 1000)) ∧
    (t < 0 → types.time_micros.to_wire t = 1) := by
  constructor
  · intro ht hb
    rw [types.time_micros.to_wire]
    simp only [if_pos ht]
    set d := t.toNat with hd
    have hdm : d % 1000000000 < 1000000000 := Nat.mod_lt _ (by norm_num)
    have hdiv : d / 1000 = d / 1000000000 * 1000000 + d % 1000000000 / 1000 := by
      conv_lhs => rw [← Nat.div_add_mod d 1000000000]
      have h3 : 1000000000 * (d / 1000000000) + d % 1000000000
          = d % 1000000000 + d / 1000000000 * 1000000 * 1000 := by ring
      rw [h3, Nat.add_mul_div_right _ _ (by norm_num : (0:ℕ) < 1000), Nat.add_comm]
    rw [types.duration_micros.to_wire]
    simp only
    rw [← hdiv, Nat.mod_eq_of_lt hb]
    exact Nat.max_comm _ 1
  · intro ht
    rw [types.time_micros.to_wire]
    simp only [if_neg (by omega : ¬ (0 : Int) ≤ t)]
    decide

/-- Claim C6 (witness for the amended statement) at 2500 ns after and 5 ns
before the epoch. -/
theorem time_to_wire_spec_witness :
    types.time_micros.to_wire 2500 = Nat.max 1 ((2500 : Int).toNat / 1000) ∧
    types.time_micros.to_wire (-5) = 1 :=
  ⟨(time_to_wire_spec 2500).1 (by decide) (by decide), (time_to_wire_spec (-5)).2 (by decide)⟩

/-- Claim C7: every `SamplingFlags` produced by its builder's `build`, and
the flags of every `TraceContext` produced by its builder, satisfy
`debug = true → sampled = Some(true)`. -/
theorem debug_implies_sampled (fb : sampling_flags.Builder) (cb : trace_context.Builder)
    (tid : TraceId) (sid : SpanId) :
    (fb.build.debug = true → fb.build.sampled = some true) ∧
    ((cb.build tid sid).flags.debug = true → (cb.build tid sid).flags.sampled = some true) := by
  constructor
  · intro h
    rw [sampling_flags.Builder.build] at h ⊢
    simp only at h
    simp [h]
  · intro h
    rw [trace_context.Builder.build] at h ⊢
    simp only [sampling_flags.Builder.build] at h ⊢
    simp [h]

/-- Claim C7 (witness): the invariant at concrete debug builders. -/
theorem debug_implies_sampled_witness :
    (sampling_flags.Builder.build ⟨none, true⟩).sampled = some true ∧
    ((trace_context.Builder.build ⟨none, ⟨none, true⟩⟩ (TraceId.short [0, 0, 0, 0, 0, 0, 0, 1])
      (SpanId.mk [0, 0, 0, 0, 0, 0, 0, 2])).flags.sampled = some true) :=
  ⟨(debug_implies_sampled ⟨none, true⟩ ⟨none, ⟨none, true⟩⟩ (TraceId.short [0, 0, 0, 0, 0, 0, 0, 1])
      (SpanId.mk [0, 0, 0, 0, 0, 0, 0, 2])).1 rfl,
   (debug_implies_sampled ⟨none, true⟩ ⟨none, ⟨none, true⟩⟩ (TraceId.short [0, 0, 0, 0, 0, 0, 0, 1])
      (SpanId.mk [0, 0, 0, 0, 0, 0, 0, 2])).2 rfl⟩

/-- A parent context that was sampled out, used as C1's counterexample. -/
def exampleParentNo : TraceContext :=
  { trace_id := TraceId.short [0, 0, 0, 0, 0, 0, 0, 1]
    parent_id := none
    span_id := SpanId.mk [1, 2, 3, 4, 5, 6, 7, 8]
    flags := { sampled := some false, debug := false } }

/-- Claim C1 (counterexample): for a parent context already sampled out
(`sampled = Some(false)`), `new_child` short-circuits to a no-op span that
reuses the parent context itself: its `parent_id` is the parent's own
parent_id (here `None`), not `Some(parent.span_id)`, and its span id is
the parent's span id rather than the freshly generated one. -/
theorem new_child_counterexample :
    (tracer.new_child (fun _ => true) ("op") exampleParentNo
        [9, 9, 9, 9, 9, 9, 9, 9] 0 0).context.parent_id ≠ some exampleParentNo.span_id ∧
    (tracer.new_child (fun _ => true) ("op") exampleParentNo
        [9, 9, 9, 9, 9, 9, 9, 9] 0 0).context.span_id = exampleParentNo.span_id := by
  decide

/-- Claim C1 (amended): for every parent context whose sampled flag is
`Some(true)`, `new_child` returns an open span whose context copies the
parent's trace id and flags, has `parent_id = Some(parent.span_id)`, and
takes the freshly generated 8 bytes as its span id — distinct from the
parent's span id whenever the generated bytes differ (which fails only
with probability 2^-64). -/
theorem new_child_spec (sampler : TraceId → Bool) (name : String) (parent : TraceContext)
    (id : List Nat) (now_sys : Int) (now_inst : Nat) (hs : parent.sampled = some true) :
    (tracer.new_child sampler name parent id now_sys now_inst).context.trace_id
        = parent.trace_id ∧
    (tracer.new_child sampler name parent id now_sys now_inst).context.parent_id
        = some parent.span_id ∧
    (tracer.new_child sampler name parent id now_sys now_inst).context.flags = parent.flags ∧
    (tracer.new_child sampler name parent id now_sys now_inst).context.span_id = SpanId.mk id ∧
    (id ≠ parent.span_id.buf →
      (tracer.new_child sampler name parent id now_sys now_inst).context.span_id
        ≠ parent.span_id) := by
  obtain ⟨tid, pid, sid, f⟩ := parent
  obtain ⟨fs, fd⟩ := f
  rw [TraceContext.sampled] at hs
  simp only at hs
  subst hs
  have hr : tracer.new_child sampler name ⟨tid, pid, sid, ⟨some true, fd⟩⟩ id now_sys now_inst
      = { context := { trace_id := tid
                       parent_id := some sid
                       span_id := SpanId.mk id
                       flags := { sampled := some true, debug := fd } }
          state := .real { name := name
                           start_time := now_sys
                           start_instant := now_inst
                           shared := false
                           kind := .local
                           annots := []
                           binary_annots := []
                           annotation_set := 0 } } := by
    rw [tracer.new_child]
    rw [if_neg (by simp [TraceContext.sampled])]
    simp [tracer.ensure_sampled, tracer.next_context, tracer.new_span,
      TraceContext.sampled, TraceContext.debug, TraceContext.builder,
      trace_context.Builder.setParentId, trace_context.Builder.setDebug,
      trace_context.Builder.setSampled, trace_context.Builder.build,
      sampling_flags.Builder.setSampled, sampling_flags.Builder.setDebug,
      sampling_flags.Builder.build, SamplingFlags.builder]
  rw [hr]
  refine ⟨rfl, rfl, rfl, rfl, fun h hEq => h ?_⟩
  have := congrArg SpanId.buf hEq
  simpa using this

/-- A parent context sampled in, used by C1's witness. -/
def exampleParentYes : TraceContext :=
  { trace_id := TraceId.short [0, 0, 0, 0, 0, 0, 0, 1]
    parent_id := none
    span_id := SpanId.mk [1, 2, 3, 4, 5, 6, 7, 8]
    flags := { sampled := some true, debug := false } }

/-- Claim C1 (witness for the amended statement). -/
theorem new_child_spec_witness :
    (tracer.new_child (fun _ => true) ("op2") exampleParentYes
        [9, 9, 9, 9, 9, 9, 9, 9] 0 0).context.trace_id = exampleParentYes.trace_id ∧
    (tracer.new_child (fun _ => true) ("op2") exampleParentYes
        [9, 9, 9, 9, 9, 9, 9, 9] 0 0).context.parent_id = some exampleParentYes.span_id ∧
    (tracer.new_child (fun _ => true) ("op2") exampleParentYes
        [9, 9, 9, 9, 9, 9, 9, 9] 0 0).context.flags = exampleParentYes.flags ∧
    (tracer.new_child (fun _ => true) ("op2") exampleParentYes
        [9, 9, 9, 9, 9, 9, 9, 9] 0 0).context.span_id = SpanId.mk [9, 9, 9, 9, 9, 9, 9, 9] ∧
    (tracer.new_child (fun _ => true) ("op2") exampleParentYes
        [9, 9, 9, 9, 9, 9, 9, 9] 0 0).context.span_id ≠ exampleParentYes.span_id := by
  have h := new_child_spec (fun _ => true) ("op2") exampleParentYes
    [9, 9, 9, 9, 9, 9, 9, 9] 0 0 rfl
  exact ⟨h.1, h.2.1, h.2.2.1, h.2.2.2.1, h.2.2.2.2 (by decide)⟩

/-- Claim C2: for a trace context whose sampled flag is `Some(false)`,
`join_trace` yields a no-op open span: its state is `Nop` and its context
is the given one unchanged, dropping it hands nothing to the reporter,
every public mutator (`server`, `client`, `annotate`, `tag`) leaves the
span unchanged, and any child created from its context via `new_child` is
likewise a `Nop` span that reports nothing when dropped. -/
theorem join_trace_sampled_out_nop (sampler sampler2 : TraceId → Bool) (name name2 : String)
    (context : TraceContext) (t1 : Int) (t2 : Nat) (ep : tracer.Endpoint) (t3 : Nat)
    (id : List Nat) (t1' : Int) (t2' : Nat) (t3' : Nat) (key v : String)
    (h : context.sampled = some false) :
    (tracer.join_trace sampler name context t1 t2).state = .nop ∧
    (tracer.join_trace sampler name context t1 t2).context = context ∧
    tracer.dropReport (tracer.join_trace sampler name context t1 t2) ep t3 = none ∧
    (tracer.join_trace sampler name context t1 t2).server
      = tracer.join_trace sampler name context t1 t2 ∧
    (tracer.join_trace sampler name context t1 t2).client
      = tracer.join_trace sampler name context t1 t2 ∧
    (tracer.join_trace sampler name context t1 t2).annotate ep v
      = tracer.join_trace sampler name context t1 t2 ∧
    (tracer.join_trace sampler name context t1 t2).tag ep key v
      = tracer.join_trace sampler name context t1 t2 ∧
    (tracer.new_child sampler2 name2 (tracer.join_trace sampler name context t1 t2).context
        id t1' t2').state = .nop ∧
    tracer.dropReport (tracer.new_child sampler2 name2
        (tracer.join_trace sampler name context t1 t2).context id t1' t2') ep t3' = none := by
  obtain ⟨tid, pid, sid, f⟩ := context
  obtain ⟨fs, fd⟩ := f
  rw [TraceContext.sampled] at h
  simp only at h
  subst h
  have hj : tracer.join_trace sampler name ⟨tid, pid, sid, ⟨some false, fd⟩⟩ t1 t2
      = { context := ⟨tid, pid, sid, ⟨some false, fd⟩⟩, state := .nop } := rfl
  rw [hj]
  have hc : tracer.new_child sampler2 name2 (⟨tid, pid, sid, ⟨some false, fd⟩⟩ : TraceContext)
      id t1' t2' = { context := ⟨tid, pid, sid, ⟨some false, fd⟩⟩, state := .nop } := rfl
  refine ⟨rfl, rfl, rfl, rfl, rfl, rfl, rfl, ?_, ?_⟩
  · rw [hc]
  · rw [hc]
    rfl

/-- A sampled-out context used by C2's witness. -/
def exampleCtxNo : TraceContext :=
  { trace_id := TraceId.short [0, 0, 0, 0, 0, 0, 0, 3]
    parent_id := none
    span_id := SpanId.mk [2, 2, 2, 2, 2, 2, 2, 2]
    flags := { sampled := some false, debug := false } }

/-- An endpoint used by C2's witness. -/
def exampleEndpoint : tracer.Endpoint :=
  { service_name := "svc", ipv4 := none, ipv6 := none, port := none }

/-- Claim C2 (witness) at a concrete sampled-out context. -/
theorem join_trace_sampled_out_nop_witness :
    (tracer.join_trace (fun _ => true) ("srv") exampleCtxNo 0 0).state = .nop ∧
    tracer.dropReport (tracer.join_trace (fun _ => true) ("srv") exampleCtxNo 0 0)
      exampleEndpoint 5 = none ∧
    (tracer.new_child (fun _ => true) ("child")
        (tracer.join_trace (fun _ => true) ("srv") exampleCtxNo 0 0).context
        [7, 7, 7, 7, 7, 7, 7, 7] 0 0).state = .nop := by
  have h := join_trace_sampled_out_nop (fun _ => true) (fun _ => true) ("srv") ("child")
    exampleCtxNo 0 0 exampleEndpoint 5 [7, 7, 7, 7, 7, 7, 7, 7] 0 0 0 ("k") ("v") rfl
  exact ⟨h.1, h.2.2.1, h.2.2.2.2.2.2.2.1⟩


/-- Claim C8: encoding sampling flags or a trace context into an empty
header map and decoding again is the identity, in both the multi-header
X-B3 form and the single-header b3 form. The flags and the context flags
satisfy the builder invariant (debug implies sampled); the ids are
well-formed byte arrays. -/
theorem b3_header_roundtrip (f : SamplingFlags) (c : TraceContext)
    (hf : f.debug = true → f.sampled = some true)
    (h1 : c.trace_id.wf) (h2 : c.span_id.wf) (h3 : ∀ p, c.parent_id = some p → p.wf)
    (hcf : c.flags.debug = true → c.flags.sampled = some true) :
    http_zipkin.get_sampling_flags (http_zipkin.set_sampling_flags f
      http_zipkin.emptyHeaders) = f ∧
    http_zipkin.get_sampling_flags (http_zipkin.set_sampling_flags_single f
      http_zipkin.emptyHeaders) = f ∧
    http_zipkin.get_trace_context (http_zipkin.set_trace_context c
      http_zipkin.emptyHeaders) = some c ∧
    http_zipkin.get_trace_context (http_zipkin.set_trace_context_single c
      http_zipkin.emptyHeaders) = some c :=
  ⟨http_zipkin.roundtrip_flags_multi f hf, http_zipkin.roundtrip_flags_single f hf,
   http_zipkin.roundtrip_context_multi c h1 h2 h3 hcf,
   http_zipkin.roundtrip_context_single c h1 h2 h3 hcf⟩

/-- A trace context with all fields populated, used by C8's witness. -/
def exampleCtxFull : TraceContext :=
  { trace_id := TraceId.short [0, 1, 2, 3, 4, 5, 6, 7]
    parent_id := some (SpanId.mk [1, 2, 3, 4, 5, 6, 7, 8])
    span_id := SpanId.mk [2, 3, 4, 5, 6, 7, 8, 9]
    flags := { sampled := some true, debug := false } }

/-- Claim C8 (witness) at concrete flags and a concrete context. -/
theorem b3_header_roundtrip_witness :
    http_zipkin.get_sampling_flags (http_zipkin.set_sampling_flags ⟨some true, false⟩
      http_zipkin.emptyHeaders) = ⟨some true, false⟩ ∧
    http_zipkin.get_sampling_flags (http_zipkin.set_sampling_flags_single ⟨some true, false⟩
      http_zipkin.emptyHeaders) = ⟨some true, false⟩ ∧
    http_zipkin.get_trace_context (http_zipkin.set_trace_context exampleCtxFull
      http_zipkin.emptyHeaders) = some exampleCtxFull ∧
    http_zipkin.get_trace_context (http_zipkin.set_trace_context_single exampleCtxFull
      http_zipkin.emptyHeaders) = some exampleCtxFull := by
  have h := b3_header_roundtrip ⟨some true, false⟩ exampleCtxFull
    (by intro h; cases h)
    (by decide) (by decide)
    (by intro p hp; cases hp; decide)
    (by intro h; cases h)
  exact h

/-- Claim C9: a 2xx response is success and yields no error; any other
status yields an error whose `status_code()` is exactly that status; a
transport failure yields an error carrying the underlying cause, whose
`status_code()` is `None`. -/
theorem handle_response_spec (s : Nat) (e : reporter.HyperError) :
    (200 ≤ s ∧ s < 300 → reporter.handle_response (.ok s) = .ok ()) ∧
    (¬(200 ≤ s ∧ s < 300) →
      reporter.handle_response (.ok s) = .error { inner := .http s } ∧
      reporter.Error.status_code { inner := .http s } = some s) ∧
    (reporter.handle_response (.error e) = .error { inner := .hyper e } ∧
      reporter.Error.status_code { inner := .hyper e } = none ∧
      reporter.Error.causeOf { inner := .hyper e } = some e) := by
  refine ⟨fun h => ?_, fun h => ⟨?_, rfl⟩, rfl, rfl, rfl⟩
  · rw [reporter.handle_response]
    simp [reporter.is_success, h.1, h.2]
  · rw [reporter.handle_response]
    simp only [reporter.is_success]
    rw [if_neg (by simpa using h)]

/-- Claim C9 (witness): a 202 response succeeds; a 403 response produces an
http error with status code 403. -/
theorem handle_response_spec_witness :
    reporter.handle_response (.ok 202) = .ok () ∧
    reporter.handle_response (.ok 403) = .error { inner := .http 403 } ∧
    reporter.Error.status_code { inner := .http 403 } = some 403 :=
  ⟨(handle_response_spec 202 ⟨""⟩).1 (by decide),
   ((handle_response_spec 403 ⟨""⟩).2.1 (by decide)).1,
   ((handle_response_spec 403 ⟨""⟩).2.1 (by decide)).2⟩

/-- Claim C10: `Span::Builder::build` returns normally exactly when both
`trace_id` and `id` are set (it panics otherwise, modelled as `none`), and
then the span's fields are exactly the accumulated builder values. -/
theorem span_builder_build_spec (b : types.span.Builder) :
    ((b.trace_id = none ∨ b.id = none) → b.build = none) ∧
    (∀ tid sid, b.trace_id = some tid → b.id = some sid →
      b.build = some { trace_id := tid
                       name := b.name
                       parent_id := b.parent_id
                       id := sid
                       kind := b.kind
                       timestamp := b.timestamp
                       duration := b.duration
                       debug := b.debug
                       shared := b.shared
                       local_endpoint := b.local_endpoint
                       remote_endpoint := b.remote_endpoint
                       annots := b.annots
                       tags := b.tags }) := by
  constructor
  · intro h
    rcases h with h | h
    · cases hid : b.id <;> simp [types.span.Builder.build, h, hid]
    · cases htid : b.trace_id <;> simp [types.span.Builder.build, h, htid]
  · intro tid sid h1 h2
    simp [types.span.Builder.build, h1, h2]

/-- Claim C10 (witness): the defaults of `Span::builder()` with ids set
build exactly the corresponding span. -/
theorem span_builder_build_spec_witness :
    types.span.Builder.build
        { types.Span.builder with
          trace_id := some (TraceId.short [0, 0, 0, 0, 0, 0, 0, 1])
          id := some (SpanId.mk [0, 0, 0, 0, 0, 0, 0, 2]) } =
      some { trace_id := TraceId.short [0, 0, 0, 0, 0, 0, 0, 1]
             name := none
             parent_id := none
             id := SpanId.mk [0, 0, 0, 0, 0, 0, 0, 2]
             kind := none
             timestamp := none
             duration := none
             debug := false
             shared := false
             local_endpoint := none
             remote_endpoint := none
             annots := []
             tags := [] } :=
  (span_builder_build_spec
      { types.Span.builder with
        trace_id := some (TraceId.short [0, 0, 0, 0, 0, 0, 0, 1])
        id := some (SpanId.mk [0, 0, 0, 0, 0, 0, 0, 2]) }).2 _ _ rfl rfl

end Zipkin
